import Mathlib

/-!
Verification of the feed-normalization layer of a personal-dashboard
repository: two serverless handlers that fetch, decode and reshape
third-party feeds into a stable JSON contract.

* `ttcHandler` embeds `api/ttc-alerts.ts`: decode a GTFS-realtime
  alerts feed, map each entity carrying an alert to a normalized
  JSON record, respond 200 with `{source, count, alerts}` or 500 with
  `{error}`.
* `envcanHandler` embeds `api/envcan-alerts.ts`: fetch a per-region
  Atom XML feed, normalize the parsed `entry` node (absent / single
  object / array) to a list, map each entry, respond 200 with
  `{region, entries}` or 500 with `{error}`.

The upstream fetch and the binary/XML decoding libraries are the
environment: each handler takes the upstream outcome (HTTP status,
status text, and the decode/parse result of the body) as input and is
otherwise the source's pure pipeline, including JavaScript truthiness
(`||`, `??`, conditional member access) made explicit.
-/

namespace Dashboard

/-- JSON values as serialized by `res.json(...)`: object fields keep
the literal's key order. -/
inductive JValue where
  | null : JValue
  | str (s : String) : JValue
  | num (n : Nat) : JValue
  | bool (b : Bool) : JValue
  | arr (xs : List JValue) : JValue
  | obj (fields : List (String × JValue)) : JValue

/-- Keys of a JSON object, in order (empty for non-objects). -/
def keysOf : JValue → List String
  | .obj fs => fs.map Prod.fst
  | _ => []

/-- Field lookup in a JSON object (first occurrence). -/
def getField : JValue → String → Option JValue
  | .obj fs, k => fs.lookup k
  | _, _ => none

/-- An HTTP response as assembled by the Vercel handler: status code,
headers in the order `setHeader` was called, JSON body. -/
structure Response where
  status : Nat
  headers : List (String × String)
  body : JValue

/-- `resp.ok` of the WHATWG fetch API: status in the 2xx range. -/
def httpOk (status : Nat) : Bool := 200 ≤ status && status < 300

/-- JavaScript truthiness of a possibly-undefined string
(`undefined` and `""` are falsy). -/
def strTruthy : Option String → Bool
  | none => false
  | some s => !(s == "")

/-- JavaScript `a || b` on possibly-undefined strings. -/
def jsOr (a b : Option String) : Option String :=
  if strTruthy a then a else b

/-- Zero-padding to two digits, as `Date.prototype.toISOString` emits. -/
def pad2 (n : Nat) : String :=
  if n < 10 then "0" ++ toString n else toString n

/-- Zero-padding to four digits for the year field. -/
def pad4 (n : Nat) : String :=
  if n < 10 then "000" ++ toString n
  else if n < 100 then "00" ++ toString n
  else if n < 1000 then "0" ++ toString n
  else toString n

/-- Proleptic-Gregorian civil date from a day count since 1970-01-01
(Hinnant's `civil_from_days`, restricted to non-negative days). -/
def civilFromDays (days : Nat) : Nat × Nat × Nat :=
  let z := days + 719468
  let era := z / 146097
  let doe := z % 146097
  let yoe := (doe - doe / 1460 + doe / 36524 - doe / 146097) / 365
  let y := yoe + era * 400
  let doy := doe - (365 * yoe + yoe / 4 - yoe / 100)
  let mp := (5 * doy + 2) / 153
  let d := doy - (153 * mp + 2) / 5 + 1
  let m := if mp < 10 then mp + 3 else mp - 9
  (if m ≤ 2 then y + 1 else y, m, d)

/-- `new Date(sec * 1000).toISOString()` for a non-negative whole
number of epoch seconds (milliseconds are always `000` here). -/
def isoOfEpoch (sec : Nat) : String :=
  let days := sec / 86400
  let rem := sec % 86400
  let c := civilFromDays days
  pad4 c.1 ++ "-" ++ pad2 c.2.1 ++ "-" ++ pad2 c.2.2 ++ "T" ++
    pad2 (rem / 3600) ++ ":" ++ pad2 (rem % 3600 / 60) ++ ":" ++
    pad2 (rem % 60) ++ ".000Z"

/-! ## TTC alerts: decoded GTFS-realtime feed (`gtfs-realtime-bindings`) -/

/-- One element of a `TranslatedString.translation` list. -/
structure Translation where
  text : String

/-- GTFS-realtime `TranslatedString`: a repeated-translation wrapper. -/
structure TranslatedString where
  translation : List Translation

/-- GTFS-realtime `TimeRange`: optional epoch-second bounds. -/
structure TimeRange where
  start : Option Nat
  «end» : Option Nat

/-- GTFS-realtime `TripDescriptor` (only the field the handler reads). -/
structure TripDescriptor where
  tripId : Option String

/-- GTFS-realtime `EntitySelector` (fields the handler reads). -/
structure EntitySelector where
  routeId : Option String
  stopId : Option String
  trip : Option TripDescriptor

/-- GTFS-realtime `Alert` sub-message (fields the handler reads);
`cause`, `effect`, `severity` are provider enum codes. -/
structure TtcAlert where
  headerText : Option TranslatedString
  descriptionText : Option TranslatedString
  url : Option TranslatedString
  cause : Option Nat
  effect : Option Nat
  severity : Option Nat
  activePeriod : List TimeRange
  informedEntity : List EntitySelector

/-- GTFS-realtime `FeedEntity`: required id, optional alert payload. -/
structure FeedEntity where
  id : String
  alert : Option TtcAlert

/-- GTFS-realtime `FeedMessage`: the repeated `entity` field. -/
structure FeedMessage where
  entity : List FeedEntity

/-- `pickText`: `tx?.translation?.[0]?.text ? String(...) : undefined` —
the first translation's text when present and non-empty, else
undefined. -/
def pickText : Option TranslatedString → Option String
  | none => none
  | some tx =>
    match tx.translation with
    | [] => none
    | tr :: _ => if tr.text == "" then none else some tr.text

/-- `x || null` on the result of `pickText` (and `?? null` on plain
optional strings agrees with it there, since `pickText` never yields
an empty string). -/
def strOrNull : Option String → JValue
  | none => JValue.null
  | some s => JValue.str s

/-- `x ?? null` on an optional numeric enum code. -/
def numOrNull : Option Nat → JValue
  | none => JValue.null
  | some n => JValue.num n

/-- `p.start ? new Date(Number(p.start) * 1000).toISOString() : null`:
absent or zero epoch bounds (falsy) become `null`. -/
def epochBound : Option Nat → JValue
  | none => JValue.null
  | some n => if n == 0 then JValue.null else JValue.str (isoOfEpoch n)

/-- Mapping of one `activePeriod` element. -/
def mapPeriod (p : TimeRange) : JValue :=
  .obj [("start", epochBound p.start), ("end", epochBound p.«end»)]

/-- Mapping of one `informedEntity` element (`?? null` semantics). -/
def mapInformed (ie : EntitySelector) : JValue :=
  .obj [("routeId", strOrNull ie.routeId),
        ("stopId", strOrNull ie.stopId),
        ("tripId", strOrNull (ie.trip.bind TripDescriptor.tripId))]

/-- The object literal built for one feed entity (only reached after
the `filter(e => e.alert)` guard, so a missing alert is unreachable
and mapped to `null`). -/
def mkEntityJson (e : FeedEntity) : JValue :=
  match e.alert with
  | none => JValue.null
  | some a =>
    .obj [("id", .str e.id),
          ("header", strOrNull (pickText a.headerText)),
          ("description", strOrNull (pickText a.descriptionText)),
          ("url", strOrNull (pickText a.url)),
          ("cause", numOrNull a.cause),
          ("effect", numOrNull a.effect),
          ("severity", numOrNull a.severity),
          ("activePeriods", .arr (a.activePeriod.map mapPeriod)),
          ("informed", .arr (a.informedEntity.map mapInformed))]

/-- `(feed.entity || []).filter(e => e.alert).map(...)`. -/
def ttcAlerts (feed : FeedMessage) : List JValue :=
  (feed.entity.filter fun e => e.alert.isSome).map mkEntityJson

/-- Outcome of the upstream fetch for the TTC handler: HTTP status and
status text, plus the result of `FeedMessage.decode` on the body bytes
(`Except.error` when the decoder throws on malformed bytes). -/
structure TtcUpstream where
  status : Nat
  statusText : String
  decoded : Except String FeedMessage

/-- The `catch` block shared verbatim by both handlers: a 500 with the
thrown error's message and only the permissive cross-origin header. -/
def err500 (msg : String) : Response :=
  { status := 500,
    headers := [("Access-Control-Allow-Origin", "*")],
    body := .obj [("error", .str msg)] }

/-- The TTC alerts handler (`api/ttc-alerts.ts`), given the upstream
outcome. -/
def ttcHandler (u : TtcUpstream) : Response :=
  if httpOk u.status then
    match u.decoded with
    | .error m => err500 m
    | .ok feed =>
      let alerts := ttcAlerts feed
      { status := 200,
        headers := [("Cache-Control", "s-maxage=60, stale-while-revalidate=300"),
                    ("Access-Control-Allow-Origin", "*")],
        body := .obj [("source", .str "bustime.ttc.ca"),
                      ("count", .num alerts.length),
                      ("alerts", .arr alerts)] }
  else
    err500 ("TTC alerts fetch failed: " ++ toString u.status ++ " " ++ u.statusText)

/-! ## EnvCan weather alerts: parsed Atom feed (`fast-xml-parser`) -/

/-- A parsed `link` element: attributes are flattened onto the node,
`href` may be absent. -/
structure RawLink where
  href : Option String

/-- A parsed `summary` node: either a plain text node or a
mixed-content object whose text portion sits under `#text`
(possibly absent). -/
inductive SummaryNode where
  | str (s : String) : SummaryNode
  | node (text : Option String) : SummaryNode

/-- One parsed `entry` element, restricted to the fields the handler
reads; every field may be absent in the XML. -/
structure RawEntry where
  id : Option String
  title : Option String
  updated : Option String
  published : Option String
  summary : Option SummaryNode
  link : Option RawLink

/-- The shape of `feed?.feed?.entry` after parsing: absent (or any
missing ancestor), a single non-array object, or an array. -/
inductive EntryNodeShape where
  | absent : EntryNodeShape
  | single (e : RawEntry) : EntryNodeShape
  | list (es : List RawEntry) : EntryNodeShape

/-- `Array.isArray(rawEntries) ? rawEntries : rawEntries ? [rawEntries] : []`. -/
def normalizeEntries : EntryNodeShape → List RawEntry
  | .absent => []
  | .single e => [e]
  | .list es => es

/-- `e.id || e.link?.href || e.updated` — the JavaScript value bound
to the `id` key (possibly undefined). -/
def entryIdJs (e : RawEntry) : Option String :=
  jsOr e.id (jsOr (e.link.bind RawLink.href) e.updated)

/-- `(e.title || '').toString().trim()`. -/
def entryTitle (e : RawEntry) : String :=
  ((jsOr e.title (some "")).getD "").trim

/-- `e.updated || e.published || null`. -/
def entryUpdatedISO (e : RawEntry) : JValue :=
  match jsOr e.updated (jsOr e.published none) with
  | some s => if s == "" then JValue.null else JValue.str s
  | none => JValue.null

/-- `(typeof e.summary === 'string' ? e.summary : e.summary?.['#text'])?.trim() || ''`. -/
def entrySummary (e : RawEntry) : String :=
  match e.summary with
  | some (.str s) => s.trim
  | some (.node t) => (t.map String.trim).getD ""
  | none => ""

/-- `e.link?.href || null`. -/
def entryLink (e : RawEntry) : JValue :=
  match jsOr (e.link.bind RawLink.href) none with
  | some s => if s == "" then JValue.null else JValue.str s
  | none => JValue.null

/-- The object literal built for one entry, serialized by `res.json`:
a key whose value is `undefined` (here only `id` can be) is dropped
from the JSON. -/
def mapEntry (e : RawEntry) : JValue :=
  .obj ((match entryIdJs e with
         | none => []
         | some s => [("id", JValue.str s)]) ++
        [("title", .str (entryTitle e)),
         ("updatedISO", entryUpdatedISO e),
         ("summary", .str (entrySummary e)),
         ("link", entryLink e)])

/-- Default region code: `const REGION_DEFAULT = 'on61'` (City of
Toronto). -/
def REGION_DEFAULT : String := "on61"

/-- `(req.query.region as string) || REGION_DEFAULT`. -/
def resolveRegion (q : Option String) : String :=
  (jsOr q (some REGION_DEFAULT)).getD REGION_DEFAULT

/-- The upstream URL template with the region interpolated. -/
def envcanUrl (region : String) : String :=
  "https://weather.gc.ca/rss/battleboard/" ++ region ++ "_e.xml"

/-- Outcome of the upstream fetch for the weather handler: HTTP status
and status text, plus the result of `parser.parse(xml)` navigated to
`feed?.feed?.entry` (`Except.error` when the XML parser throws). -/
structure EnvUpstream where
  status : Nat
  statusText : String
  parsed : Except String EntryNodeShape

/-- Response assembly of `api/envcan-alerts.ts` once the region is
resolved and the upstream outcome is known. -/
def envcanRespond (region : String) (u : EnvUpstream) : Response :=
  if httpOk u.status then
    match u.parsed with
    | .error m => err500 m
    | .ok shape =>
      let entries := (normalizeEntries shape).map mapEntry
      { status := 200,
        headers := [("Cache-Control", "s-maxage=120, stale-while-revalidate=600"),
                    ("Access-Control-Allow-Origin", "*")],
        body := .obj [("region", .str region), ("entries", .arr entries)] }
  else
    err500 ("EnvCan fetch failed: " ++ toString u.status ++ " " ++ u.statusText)

/-- The weather alerts handler (`api/envcan-alerts.ts`): resolve the
region, fetch the region's battleboard URL (the fetch environment is
a function from the URL to the upstream outcome), respond. -/
def envcanHandler (q : Option String) (fetchEnv : String → EnvUpstream) : Response :=
  let region := resolveRegion q
  envcanRespond region (fetchEnv (envcanUrl region))

/-! ## Claim theorems -/

/-- Claim C1: for every parsed weather feed, the response's `entries`
is an array — empty when the `entry` node is absent, a one-element
array of the mapped entry when the node is a single non-array object,
and one mapped element per raw entry when it is already a sequence. -/
theorem C1_entries_always_array (region : String) (u : EnvUpstream)
    (shape : EntryNodeShape) (hok : httpOk u.status = true)
    (hp : u.parsed = .ok shape) :
    (envcanRespond region u).body
      = .obj [("region", .str region),
              ("entries", .arr ((normalizeEntries shape).map mapEntry))]
    ∧ normalizeEntries EntryNodeShape.absent = []
    ∧ (∀ e, (normalizeEntries (EntryNodeShape.single e)).map mapEntry = [mapEntry e])
    ∧ (∀ es, ((normalizeEntries (EntryNodeShape.list es)).map mapEntry).length = es.length) := by
  refine ⟨?_, rfl, fun e => rfl, fun es => by simp [normalizeEntries]⟩
  simp [envcanRespond, hok, hp]

/-- Witness for C1 at a concrete successful upstream with an absent
`entry` node. -/
theorem C1_entries_always_array_witness :
    httpOk 200 = true
    ∧ (⟨200, "OK", .ok .absent⟩ : EnvUpstream).parsed = .ok .absent
    ∧ ((envcanRespond "on61" ⟨200, "OK", .ok .absent⟩).body
        = .obj [("region", .str "on61"),
                ("entries", .arr ((normalizeEntries .absent).map mapEntry))]
      ∧ normalizeEntries EntryNodeShape.absent = []
      ∧ (∀ e, (normalizeEntries (EntryNodeShape.single e)).map mapEntry = [mapEntry e])
      ∧ (∀ es, ((normalizeEntries (EntryNodeShape.list es)).map mapEntry).length = es.length)) :=
  ⟨by decide, rfl,
   C1_entries_always_array "on61" ⟨200, "OK", .ok .absent⟩ .absent (by decide) rfl⟩

/-- Claim C2: on every successfully decoded transit feed the success
body's `count` equals `alerts.length`, and `alerts` holds exactly one
mapped record per feed entity whose `alert` field is present; entities
without an alert are dropped and the response is still a 200. -/
theorem C2_count_matches_alerts (u : TtcUpstream) (feed : FeedMessage)
    (hok : httpOk u.status = true) (hd : u.decoded = .ok feed) :
    (ttcHandler u).status = 200
    ∧ (ttcHandler u).body
        = .obj [("source", .str "bustime.ttc.ca"),
                ("count", .num (ttcAlerts feed).length),
                ("alerts", .arr (ttcAlerts feed))]
    ∧ (ttcAlerts feed).length = (feed.entity.filter fun e => e.alert.isSome).length
    ∧ ttcAlerts feed = (feed.entity.filter fun e => e.alert.isSome).map mkEntityJson := by
  refine ⟨?_, ?_, by simp [ttcAlerts], rfl⟩ <;> simp [ttcHandler, hok, hd]

/-- Witness for C2: two entities, one with an alert and one without —
the alert-less entity is dropped and `count` is 1. -/
theorem C2_count_matches_alerts_witness :
    httpOk 200 = true
    ∧ (⟨200, "OK",
        .ok ⟨[⟨"e1", some ⟨none, none, none, none, none, none, [], []⟩⟩,
              ⟨"e2", none⟩]⟩⟩ : TtcUpstream).decoded
        = .ok ⟨[⟨"e1", some ⟨none, none, none, none, none, none, [], []⟩⟩,
                ⟨"e2", none⟩]⟩
    ∧ ((ttcHandler ⟨200, "OK",
          .ok ⟨[⟨"e1", some ⟨none, none, none, none, none, none, [], []⟩⟩,
                ⟨"e2", none⟩]⟩⟩).status = 200
      ∧ (ttcHandler ⟨200, "OK",
            .ok ⟨[⟨"e1", some ⟨none, none, none, none, none, none, [], []⟩⟩,
                  ⟨"e2", none⟩]⟩⟩).body
          = .obj [("source", .str "bustime.ttc.ca"),
                  ("count", .num (ttcAlerts ⟨[⟨"e1", some ⟨none, none, none, none, none, none, [], []⟩⟩,
                                              ⟨"e2", none⟩]⟩).length),
                  ("alerts", .arr (ttcAlerts ⟨[⟨"e1", some ⟨none, none, none, none, none, none, [], []⟩⟩,
                                               ⟨"e2", none⟩]⟩))]
      ∧ (ttcAlerts ⟨[⟨"e1", some ⟨none, none, none, none, none, none, [], []⟩⟩,
                     ⟨"e2", none⟩]⟩).length
          = ((⟨[⟨"e1", some ⟨none, none, none, none, none, none, [], []⟩⟩,
                ⟨"e2", none⟩]⟩ : FeedMessage).entity.filter fun e => e.alert.isSome).length
      ∧ ttcAlerts ⟨[⟨"e1", some ⟨none, none, none, none, none, none, [], []⟩⟩,
                    ⟨"e2", none⟩]⟩
          = ((⟨[⟨"e1", some ⟨none, none, none, none, none, none, [], []⟩⟩,
                ⟨"e2", none⟩]⟩ : FeedMessage).entity.filter fun e => e.alert.isSome).map mkEntityJson) :=
  ⟨by decide, rfl,
   C2_count_matches_alerts _ _ (by decide) rfl⟩

/-- Claim C8: every response of either service, on the success path and
the failure path alike, carries `Access-Control-Allow-Origin: *`. -/
theorem C8_cors_on_every_response (u : TtcUpstream) (q : Option String)
    (f : String → EnvUpstream) :
    ("Access-Control-Allow-Origin", "*") ∈ (ttcHandler u).headers
    ∧ ("Access-Control-Allow-Origin", "*") ∈ (envcanHandler q f).headers := by
  constructor
  · by_cases h : httpOk u.status = true
    · cases hd : u.decoded <;> simp [ttcHandler, h, hd, err500]
    · simp [ttcHandler, h, err500]
  · by_cases h : httpOk (f (envcanUrl (resolveRegion q))).status = true
    · cases hp : (f (envcanUrl (resolveRegion q))).parsed <;>
        simp [envcanHandler, envcanRespond, h, hp, err500]
    · simp [envcanHandler, envcanRespond, h, err500]

/-- Claim C10: a failure-path (HTTP 500) response of either service has
only the cross-origin header — in particular no `Cache-Control`. -/
theorem C10_no_cache_header_on_error (u : TtcUpstream) (region : String)
    (v : EnvUpstream) (hu : (ttcHandler u).status = 500)
    (hv : (envcanRespond region v).status = 500) :
    (ttcHandler u).headers = [("Access-Control-Allow-Origin", "*")]
    ∧ (envcanRespond region v).headers = [("Access-Control-Allow-Origin", "*")] := by
  constructor
  · by_cases h : httpOk u.status = true
    · cases hd : u.decoded with
      | error m => simp [ttcHandler, h, hd, err500]
      | ok feed => exfalso; simp [ttcHandler, h, hd] at hu
    · simp [ttcHandler, h, err500]
  · by_cases h : httpOk v.status = true
    · cases hp : v.parsed with
      | error m => simp [envcanRespond, h, hp, err500]
      | ok shape => exfalso; simp [envcanRespond, h, hp] at hv
    · simp [envcanRespond, h, err500]

/-- Witness for C10 at a concrete 404 upstream for both services. -/
theorem C10_no_cache_header_on_error_witness :
    (ttcHandler ⟨404, "Not Found", .ok ⟨[]⟩⟩).status = 500
    ∧ (envcanRespond "on61" ⟨404, "Not Found", .ok .absent⟩).status = 500
    ∧ ((ttcHandler ⟨404, "Not Found", .ok ⟨[]⟩⟩).headers
        = [("Access-Control-Allow-Origin", "*")]
      ∧ (envcanRespond "on61" ⟨404, "Not Found", .ok .absent⟩).headers
        = [("Access-Control-Allow-Origin", "*")]) :=
  ⟨by decide, by decide,
   C10_no_cache_header_on_error ⟨404, "Not Found", .ok ⟨[]⟩⟩ "on61"
     ⟨404, "Not Found", .ok .absent⟩ (by decide) (by decide)⟩

/-- Claim C3: `header`, `description` and `url` each come from
`pickText` on the corresponding repeated-translation structure: the
value is the first translation's text when present and non-empty,
absent (null) when the structure or its list is missing, and
translations past the first are ignored. -/
theorem C3_first_translation_only (e : FeedEntity) (a : TtcAlert)
    (ha : e.alert = some a) :
    (getField (mkEntityJson e) "header" = some (strOrNull (pickText a.headerText))
      ∧ getField (mkEntityJson e) "description" = some (strOrNull (pickText a.descriptionText))
      ∧ getField (mkEntityJson e) "url" = some (strOrNull (pickText a.url)))
    ∧ (∀ (tr : Translation) (rest : List Translation),
        pickText (some ⟨tr :: rest⟩) = pickText (some ⟨[tr]⟩))
    ∧ (∀ (tr : Translation) (rest : List Translation), tr.text ≠ "" →
        pickText (some ⟨tr :: rest⟩) = some tr.text)
    ∧ pickText none = none
    ∧ (∀ tx : TranslatedString, tx.translation = [] → pickText (some tx) = none) := by
  refine ⟨⟨?_, ?_, ?_⟩, fun tr rest => rfl,
          fun tr rest h => by simp [pickText, h], rfl,
          fun tx htx => by simp [pickText, htx]⟩ <;>
    (simp [mkEntityJson, ha]; rfl)

/-- Sample alert with a two-element translations list for the header. -/
def sampleAlert : TtcAlert :=
  ⟨some ⟨[⟨"Line closure"⟩, ⟨"Fermeture"⟩]⟩, none, none, none, none, none, [], []⟩

/-- Sample feed entity carrying `sampleAlert`. -/
def sampleEntity : FeedEntity := ⟨"e1", some sampleAlert⟩

/-- Witness for C3 at an entity whose alert has a two-element
translations list for the header. -/
theorem C3_first_translation_only_witness :
    sampleEntity.alert = some sampleAlert
    ∧ ((getField (mkEntityJson sampleEntity) "header"
          = some (strOrNull (pickText sampleAlert.headerText))
        ∧ getField (mkEntityJson sampleEntity) "description"
          = some (strOrNull (pickText sampleAlert.descriptionText))
        ∧ getField (mkEntityJson sampleEntity) "url"
          = some (strOrNull (pickText sampleAlert.url)))
      ∧ (∀ (tr : Translation) (rest : List Translation),
          pickText (some ⟨tr :: rest⟩) = pickText (some ⟨[tr]⟩))
      ∧ (∀ (tr : Translation) (rest : List Translation), tr.text ≠ "" →
          pickText (some ⟨tr :: rest⟩) = some tr.text)
      ∧ pickText none = none
      ∧ (∀ tx : TranslatedString, tx.translation = [] → pickText (some tx) = none))
    ∧ pickText sampleAlert.headerText = some "Line closure" :=
  ⟨rfl, C3_first_translation_only sampleEntity sampleAlert rfl, rfl⟩

/-- Claim C4: the per-record JSON shape is stable — the key list is the
same fixed nine keys for every mapped alert, the six optional scalar
fields are explicit nulls when absent, and active-period bounds are
timestamp strings exactly when present and non-zero (null otherwise);
a period with only a `start` maps to `{start: ISO, end: null}`. -/
theorem C4_stable_record_shape (e : FeedEntity) (a : TtcAlert)
    (p : TimeRange) (n : Nat) (ha : e.alert = some a) :
    keysOf (mkEntityJson e)
      = ["id", "header", "description", "url", "cause", "effect",
         "severity", "activePeriods", "informed"]
    ∧ (a.headerText = none → getField (mkEntityJson e) "header" = some JValue.null)
    ∧ (a.descriptionText = none → getField (mkEntityJson e) "description" = some JValue.null)
    ∧ (a.url = none → getField (mkEntityJson e) "url" = some JValue.null)
    ∧ (a.cause = none → getField (mkEntityJson e) "cause" = some JValue.null)
    ∧ (a.effect = none → getField (mkEntityJson e) "effect" = some JValue.null)
    ∧ (a.severity = none → getField (mkEntityJson e) "severity" = some JValue.null)
    ∧ epochBound none = JValue.null
    ∧ epochBound (some 0) = JValue.null
    ∧ (n ≠ 0 → epochBound (some n) = JValue.str (isoOfEpoch n))
    ∧ (p.start = some n → n ≠ 0 → p.«end» = none →
        mapPeriod p = .obj [("start", .str (isoOfEpoch n)), ("end", JValue.null)]) := by
  refine ⟨by simp [mkEntityJson, ha, keysOf], fun h => ?_, fun h => ?_, fun h => ?_,
          fun h => ?_, fun h => ?_, fun h => ?_, rfl, rfl,
          fun hn => by simp [epochBound, hn],
          fun hs hn he => by simp [mapPeriod, hs, he, epochBound, hn]⟩ <;>
    (simp [mkEntityJson, ha, h]; rfl)

/-- Sample alert with every optional field absent and one active
period carrying only a `start` of 60 epoch seconds. -/
def bareAlert : TtcAlert :=
  ⟨none, none, none, none, none, none, [⟨some 60, none⟩], []⟩

/-- Sample feed entity carrying `bareAlert`. -/
def bareEntity : FeedEntity := ⟨"e1", some bareAlert⟩

/-- The active period of `bareAlert`. -/
def barePeriod : TimeRange := ⟨some 60, none⟩

/-- Witness for C4 at `bareEntity`, whose alert has every optional
field absent and an active period with only a `start`. -/
theorem C4_stable_record_shape_witness :
    bareEntity.alert = some bareAlert
    ∧ (keysOf (mkEntityJson bareEntity)
        = ["id", "header", "description", "url", "cause", "effect",
           "severity", "activePeriods", "informed"]
      ∧ (bareAlert.headerText = none → getField (mkEntityJson bareEntity) "header" = some JValue.null)
      ∧ (bareAlert.descriptionText = none → getField (mkEntityJson bareEntity) "description" = some JValue.null)
      ∧ (bareAlert.url = none → getField (mkEntityJson bareEntity) "url" = some JValue.null)
      ∧ (bareAlert.cause = none → getField (mkEntityJson bareEntity) "cause" = some JValue.null)
      ∧ (bareAlert.effect = none → getField (mkEntityJson bareEntity) "effect" = some JValue.null)
      ∧ (bareAlert.severity = none → getField (mkEntityJson bareEntity) "severity" = some JValue.null)
      ∧ epochBound none = JValue.null
      ∧ epochBound (some 0) = JValue.null
      ∧ ((60 : Nat) ≠ 0 → epochBound (some 60) = JValue.str (isoOfEpoch 60))
      ∧ (barePeriod.start = some 60 → (60 : Nat) ≠ 0 → barePeriod.«end» = none →
          mapPeriod barePeriod
            = .obj [("start", .str (isoOfEpoch 60)), ("end", JValue.null)]))
    ∧ mapPeriod barePeriod
        = .obj [("start", .str "1970-01-01T00:01:00.000Z"), ("end", JValue.null)] :=
  ⟨rfl, C4_stable_record_shape bareEntity bareAlert barePeriod 60 rfl, rfl⟩

/-- The `id` key of a mapped weather entry holds exactly the value of
the `e.id || e.link?.href || e.updated` chain when that value is
defined. -/
theorem getField_mapEntry_id (e : RawEntry) (s : String)
    (h : entryIdJs e = some s) :
    getField (mapEntry e) "id" = some (JValue.str s) := by
  simp [mapEntry, h, getField]

/-- Claim C5: a mapped weather entry's `id` is the first non-empty of
the provider id, the permalink href and the update timestamp, in that
priority order. -/
theorem C5_id_fallback_priority (e : RawEntry) (s : String) (hs : s ≠ "") :
    (e.id = some s → getField (mapEntry e) "id" = some (JValue.str s))
    ∧ (strTruthy e.id = false → e.link.bind RawLink.href = some s →
        getField (mapEntry e) "id" = some (JValue.str s))
    ∧ (strTruthy e.id = false → strTruthy (e.link.bind RawLink.href) = false →
        e.updated = some s → getField (mapEntry e) "id" = some (JValue.str s)) := by
  have hts : strTruthy (some s) = true := by simp [strTruthy, hs]
  refine ⟨fun h1 => getField_mapEntry_id e s ?_,
          fun h1 h2 => getField_mapEntry_id e s ?_,
          fun h1 h2 h3 => getField_mapEntry_id e s ?_⟩
  · simp [entryIdJs, jsOr, h1, hts]
  · simp [entryIdJs, jsOr, h1, h2, hts]
  · simp [entryIdJs, jsOr, h1, h2, h3]

/-- Witness for C5 at an entry with only a provider id. -/
theorem C5_id_fallback_priority_witness :
    ("W123" : String) ≠ ""
    ∧ (((⟨some "W123", none, none, none, none, none⟩ : RawEntry).id = some "W123" →
        getField (mapEntry ⟨some "W123", none, none, none, none, none⟩) "id"
          = some (JValue.str "W123"))
      ∧ (strTruthy (⟨some "W123", none, none, none, none, none⟩ : RawEntry).id = false →
          (⟨some "W123", none, none, none, none, none⟩ : RawEntry).link.bind RawLink.href
            = some "W123" →
          getField (mapEntry ⟨some "W123", none, none, none, none, none⟩) "id"
            = some (JValue.str "W123"))
      ∧ (strTruthy (⟨some "W123", none, none, none, none, none⟩ : RawEntry).id = false →
          strTruthy ((⟨some "W123", none, none, none, none, none⟩ : RawEntry).link.bind
            RawLink.href) = false →
          (⟨some "W123", none, none, none, none, none⟩ : RawEntry).updated = some "W123" →
          getField (mapEntry ⟨some "W123", none, none, none, none, none⟩) "id"
            = some (JValue.str "W123")))
    ∧ getField (mapEntry ⟨some "W123", none, none, none, none, none⟩) "id"
        = some (JValue.str "W123") :=
  ⟨by decide,
   C5_id_fallback_priority ⟨some "W123", none, none, none, none, none⟩ "W123" (by decide),
   (C5_id_fallback_priority ⟨some "W123", none, none, none, none, none⟩ "W123"
     (by decide)).1 rfl⟩

/-- Claim C6: a non-success upstream HTTP status makes either handler
respond 500 with `{error: <message>}`, the message formatted as
`"TTC alerts fetch failed: <status> <statusText>"` respectively
`"EnvCan fetch failed: <status> <statusText>"`, which contains the
upstream status code. -/
theorem C6_upstream_error_envelope (u : TtcUpstream) (region : String)
    (v : EnvUpstream) (hu : httpOk u.status = false)
    (hv : httpOk v.status = false) :
    ((ttcHandler u).status = 500
      ∧ (ttcHandler u).body
          = .obj [("error", .str ("TTC alerts fetch failed: "
              ++ toString u.status ++ " " ++ u.statusText))]
      ∧ ∃ pre post, "TTC alerts fetch failed: " ++ toString u.status ++ " " ++ u.statusText
          = pre ++ toString u.status ++ post)
    ∧ ((envcanRespond region v).status = 500
      ∧ (envcanRespond region v).body
          = .obj [("error", .str ("EnvCan fetch failed: "
              ++ toString v.status ++ " " ++ v.statusText))]
      ∧ ∃ pre post, "EnvCan fetch failed: " ++ toString v.status ++ " " ++ v.statusText
          = pre ++ toString v.status ++ post) := by
  refine ⟨⟨?_, ?_, ⟨"TTC alerts fetch failed: ", " " ++ u.statusText, ?_⟩⟩,
          ⟨?_, ?_, ⟨"EnvCan fetch failed: ", " " ++ v.statusText, ?_⟩⟩⟩ <;>
    simp [ttcHandler, envcanRespond, hu, hv, err500, String.append_assoc]

/-- Witness for C6 at a 404 upstream for both services. -/
theorem C6_upstream_error_envelope_witness :
    httpOk 404 = false
    ∧ (((ttcHandler ⟨404, "Not Found", .ok ⟨[]⟩⟩).status = 500
      ∧ (ttcHandler ⟨404, "Not Found", .ok ⟨[]⟩⟩).body
          = .obj [("error", .str ("TTC alerts fetch failed: "
              ++ toString (404 : Nat) ++ " " ++ "Not Found"))]
      ∧ ∃ pre post, "TTC alerts fetch failed: " ++ toString (404 : Nat) ++ " " ++ "Not Found"
          = pre ++ toString (404 : Nat) ++ post)
    ∧ ((envcanRespond "on61" ⟨404, "Not Found", .ok .absent⟩).status = 500
      ∧ (envcanRespond "on61" ⟨404, "Not Found", .ok .absent⟩).body
          = .obj [("error", .str ("EnvCan fetch failed: "
              ++ toString (404 : Nat) ++ " " ++ "Not Found"))]
      ∧ ∃ pre post, "EnvCan fetch failed: " ++ toString (404 : Nat) ++ " " ++ "Not Found"
          = pre ++ toString (404 : Nat) ++ post)) :=
  ⟨by decide,
   C6_upstream_error_envelope ⟨404, "Not Found", .ok ⟨[]⟩⟩ "on61"
     ⟨404, "Not Found", .ok .absent⟩ (by decide) (by decide)⟩

/-- Claim C7: an absent or empty `region` query parameter resolves to
the fixed default Toronto region code `on61`, which is used to build
the upstream URL and echoed in the success body's `region` field. -/
theorem C7_default_region (q : Option String) (f : String → EnvUpstream)
    (h : q = none ∨ q = some "") :
    resolveRegion q = REGION_DEFAULT
    ∧ REGION_DEFAULT = "on61"
    ∧ envcanHandler q f = envcanRespond "on61" (f (envcanUrl "on61"))
    ∧ envcanUrl REGION_DEFAULT = "https://weather.gc.ca/rss/battleboard/on61_e.xml"
    ∧ (∀ (v : EnvUpstream) (shape : EntryNodeShape),
        httpOk v.status = true → v.parsed = .ok shape →
        getField (envcanRespond (resolveRegion q) v).body "region"
          = some (JValue.str "on61")) := by
  have hr : resolveRegion q = "on61" := by
    rcases h with h | h <;> rw [h] <;> rfl
  refine ⟨hr, rfl, ?_, rfl, fun v shape hok hp => ?_⟩
  · unfold envcanHandler
    rw [hr]
  · rw [hr]
    simp [envcanRespond, hok, hp, getField]

/-- Witness for C7 with the `region` parameter omitted and a concrete
successful upstream. -/
theorem C7_default_region_witness :
    ((none : Option String) = none ∨ (none : Option String) = some "")
    ∧ (resolveRegion none = REGION_DEFAULT
      ∧ REGION_DEFAULT = "on61"
      ∧ envcanHandler none (fun _ => ⟨200, "OK", .ok .absent⟩)
          = envcanRespond "on61" ((fun _ => (⟨200, "OK", .ok .absent⟩ : EnvUpstream))
              (envcanUrl "on61"))
      ∧ envcanUrl REGION_DEFAULT = "https://weather.gc.ca/rss/battleboard/on61_e.xml"
      ∧ (∀ (v : EnvUpstream) (shape : EntryNodeShape),
          httpOk v.status = true → v.parsed = .ok shape →
          getField (envcanRespond (resolveRegion (none : Option String)) v).body "region"
            = some (JValue.str "on61"))) :=
  ⟨Or.inl rfl, C7_default_region none (fun _ => ⟨200, "OK", .ok .absent⟩) (Or.inl rfl)⟩

/-- A weather entry with every field the handler reads absent. -/
def emptyEntry : RawEntry := ⟨none, none, none, none, none, none⟩

/-- Claim C9: when the provider id, permalink href and update
timestamp are all missing, the `id || href || updated` chain is
undefined, so the `id` key is dropped from the serialized entry, and
such an entry still ships in a 200 response. -/
theorem C9_id_key_dropped_when_all_missing :
    entryIdJs emptyEntry = none
    ∧ getField (mapEntry emptyEntry) "id" = none
    ∧ keysOf (mapEntry emptyEntry) = ["title", "updatedISO", "summary", "link"]
    ∧ (envcanRespond "on61" ⟨200, "OK", .ok (.single emptyEntry)⟩).status = 200
    ∧ getField (envcanRespond "on61" ⟨200, "OK", .ok (.single emptyEntry)⟩).body "entries"
        = some (.arr [mapEntry emptyEntry]) :=
  ⟨rfl, rfl, rfl, rfl, rfl⟩

end Dashboard
